import Mathlib

/-!
Verification of the data-ingestion logic of `rastermap/io.py`
(`_load_dict`, `load_activity`, `_load_iscell`, `_load_stat`).

The embedding is a shallow model of the Python source:

* numpy arrays are `NDArray` (a shape together with row-major flat data,
  elements carried as exact rationals);
* Python exceptions are the `PyError` type, and every fallible operation
  returns `Except PyError _`;
* Python local variables that the source may leave unassigned are modelled
  as `PyLocal := Option (Option NDArray)`: `none` means the local was never
  assigned (reading it raises `UnboundLocalError`), `some none` means the
  local holds Python `None`, and `some (some a)` means it holds an array.
  This matters because line 10 of the source initialises
  `X, Usv, Vsv, xpos, ypos, xy` to `None` but leaves `U`, `V`, `Sv`
  unassigned, and `load_activity` initialises `Usv, Vsv` but not `xy`;
* the contents of the file being loaded are passed in explicitly as a
  `Content` value describing what the extension-specific reader
  (`scipy.io.loadmat`, `mat73.loadmat`, `numpy.load`) would return.

Values stored in the loaded mappings are always arrays (that is what the
readers produce for the recognised keys), so a bound `U`/`V`/`Sv` is never
Python `None`; the embedding still represents that state so the source's
dead branches can be transcribed.
-/

namespace Rastermap

/-- A numpy array: a shape and its row-major flat data.
Element values are exact rationals. -/
structure NDArray where
  shape : List Nat
  data : List Rat
deriving DecidableEq, Repr

/-- Python exceptions raised by the modelled code.  `unboundLocalError`
(a subclass of `NameError` in Python) and `attributeError` carry just the
offending name. -/
inductive PyError where
  | valueError (msg : String)
  | osError (msg : String)
  | runtimeError (msg : String)
  | typeError (msg : String)
  | nameError (name : String)
  | unboundLocalError (name : String)
  | indexError (msg : String)
  | keyError (key : String)
  | attributeError (attr : String)
  | exception (msg : String)
deriving DecidableEq, Repr

/-- A Python local variable slot: `none` = never assigned,
`some none` = bound to `None`, `some (some a)` = bound to an array. -/
abbrev PyLocal := Option (Option NDArray)

/-- Reading a local: referencing an unassigned local raises
`UnboundLocalError` (Python reports the variable name). -/
def pyRead (name : String) (l : PyLocal) : Except PyError (Option NDArray) :=
  match l with
  | none => .error (.unboundLocalError name)
  | some v => .ok v

/-- `v.shape` for a value that may be Python `None`:
attribute access on `None` raises `AttributeError`. -/
def asArray (v : Option NDArray) : Except PyError NDArray :=
  match v with
  | none => .error (.attributeError "shape")
  | some a => .ok a

def NDArray.ndim (a : NDArray) : Nat := a.shape.length

/-- numpy `a.size` (product of the shape). -/
def NDArray.size (a : NDArray) : Nat := a.shape.prod

/-- `a.shape[-1]`; indexing the shape of a 0-d array raises `IndexError`. -/
def shapeLast (a : NDArray) : Except PyError Nat :=
  match a.shape.getLast? with
  | some d => .ok d
  | none => .error (.indexError "tuple index out of range")

/-- `a.shape[0]`; indexing the shape of a 0-d array raises `IndexError`. -/
def shapeHead (a : NDArray) : Except PyError Nat :=
  match a.shape.head? with
  | some d => .ok d
  | none => .error (.indexError "tuple index out of range")

/-- Elementwise square, `a ** 2`. -/
def npSquare (a : NDArray) : NDArray :=
  ⟨a.shape, a.data.map (fun x => x * x)⟩

/-- `a.sum(axis=0)`: sums along the leading axis.  (numpy rejects a 0-d
input; that case is unreachable in the modelled code, which only applies
this to arrays taken from the loaded mapping inside a dead branch.) -/
def sumAxis0 (a : NDArray) : NDArray :=
  match a.shape with
  | [] => a
  | n :: rest =>
    let c := rest.prod
    ⟨rest, (List.range c).map
      (fun j => (((List.range n).map (fun i => a.data.getD (i * c + j) 0)).sum))⟩

/-- Models the elementwise `** 0.5` applied to the summed squares when the
source derives `Sv` as column norms.  Rationals are not closed under square
roots, and in this version of the code the derivation branch can never
execute (its guard `Sv is None` can only be evaluated without raising when
`Sv` is already bound to an array), so no reachable execution observes the
element values of this operation; the embedding keeps the shape and leaves
the data unchanged. -/
def powHalf (a : NDArray) : NDArray := a

/-- `(A ** 2).sum(axis=0) ** 0.5` from lines 47 and 52 of the source. -/
def colNorms (a : NDArray) : NDArray := powHalf (sumAxis0 (npSquare a))

/-- Right-pad-aware shape padding used by numpy broadcasting. -/
def padShape (n : Nat) (s : List Nat) : List Nat :=
  List.replicate (n - s.length) 1 ++ s

/-- numpy broadcast of two shapes; `none` when they are incompatible. -/
def broadcastShape (s1 s2 : List Nat) : Option (List Nat) :=
  let n := max s1.length s2.length
  ((padShape n s1).zip (padShape n s2)).mapM
    (fun p => if p.1 = p.2 then some p.1
      else if p.1 = 1 then some p.2
      else if p.2 = 1 then some p.1 else none)

/-- Row-major multi-index of flat position `i` in `shape`. -/
def toMulti (shape : List Nat) (i : Nat) : List Nat :=
  (shape.foldr (fun d acc => (acc.1 / d, (acc.1 % d) :: acc.2)) (i, ([] : List Nat))).2

/-- Row-major flat position of multi-index `idx` in `shape`. -/
def fromMulti (shape idx : List Nat) : Nat :=
  (shape.zip idx).foldl (fun acc p => acc * p.1 + p.2) 0

/-- Read operand `a` at a broadcast result index `idx` (length-1 axes of
`a` are clamped to position 0, missing leading axes are dropped). -/
def bGet (a : NDArray) (idx : List Nat) : Rat :=
  let idx1 := idx.drop (idx.length - a.shape.length)
  let idx2 := (a.shape.zip idx1).map (fun p => if p.1 = 1 then 0 else p.2)
  a.data.getD (fromMulti a.shape idx2) 0

/-- numpy elementwise product `a * b` with broadcasting; incompatible
shapes raise `ValueError`. -/
def npMul (a b : NDArray) : Except PyError NDArray :=
  match broadcastShape a.shape b.shape with
  | none => .error (.valueError "operands could not be broadcast together")
  | some s =>
    .ok ⟨s, (List.range s.prod).map (fun i =>
      let idx := toMulti s i
      bGet a idx * bGet b idx)⟩

/-- `np.stack((a, b), axis=1)`.  The second operand may be Python `None`
(the source stacks `ypos`, which can still be `None`); numpy converts it
to a 0-d object array, whose shape then never matches a 1-d `xpos`. -/
def npStack2 (a : NDArray) (b? : Option NDArray) : Except PyError NDArray :=
  let b := b?.getD ⟨[], [0]⟩
  if a.shape ≠ b.shape then
    .error (.valueError "all input arrays must have the same shape")
  else
    match a.shape with
    | [] => .error (.valueError "axis 1 is out of bounds for array of dimension 1")
    | n :: rest =>
      let c := rest.prod
      .ok ⟨n :: 2 :: rest,
        (List.range n).flatMap (fun i =>
          ((a.data.drop (i * c)).take c) ++ ((b.data.drop (i * c)).take c))⟩

/-- `a.T` for the 2-d case (the only case reached by the source, which
guards the transpose with `xy.ndim == 2`). -/
def transpose2 (a : NDArray) : NDArray :=
  match a.shape with
  | [r, c] =>
    ⟨[c, r], (List.range c).flatMap
      (fun j => (List.range r).map (fun i => a.data.getD (i * c + j) 0))⟩
  | _ => a

/-! ## `_load_dict` (io.py lines 9–84) -/

/-- The local variables of `_load_dict`.  Line 10 of the source binds
`X, Usv, Vsv, xpos, ypos, xy` to `None`; `U`, `V`, `Sv` are *not*
initialised, which `initState` records as unassigned slots. -/
structure DState where
  X : PyLocal
  Usv : PyLocal
  Vsv : PyLocal
  xpos : PyLocal
  ypos : PyLocal
  xy : PyLocal
  U : PyLocal
  V : PyLocal
  Sv : PyLocal
  other_keys : List String
deriving DecidableEq, Repr

def initState : DState :=
  { X := some none, Usv := some none, Vsv := some none,
    xpos := some none, ypos := some none, xy := some none,
    U := none, V := none, Sv := none, other_keys := [] }

/-- One iteration of the key loop (lines 12–42): the `elif` chain on the
key name.  Iterating the mapping's items is equivalent to iterating its
keys and looking each one up, since mapping keys are unique. -/
def assignKey (s : DState) (kv : String × NDArray) : DState :=
  if kv.1 = "Usv" then { s with Usv := some (some kv.2) }
  else if kv.1 = "Vsv" then { s with Vsv := some (some kv.2) }
  else if kv.1 = "U" then { s with U := some (some kv.2) }
  else if kv.1 = "U0" then { s with U := some (some kv.2) }
  else if kv.1 = "V" then { s with V := some (some kv.2) }
  else if kv.1 = "V0" then { s with V := some (some kv.2) }
  else if kv.1 = "Sv" then { s with Sv := some (some kv.2) }
  else if kv.1 = "sv" then { s with Sv := some (some kv.2) }
  else if kv.1 = "X" then { s with X := some (some kv.2) }
  else if kv.1 = "spks" then { s with X := some (some kv.2) }
  else if kv.1 = "xpos" then { s with xpos := some (some kv.2) }
  else if kv.1 = "ypos" then { s with ypos := some (some kv.2) }
  else if kv.1 = "xy" then { s with xy := some (some kv.2) }
  else if kv.1 = "xyz" then { s with xy := some (some kv.2) }
  else { s with other_keys := s.other_keys ++ [kv.1] }

/-- Lines 45–54: the `if`/`elif` that may rebind `Sv` by deriving it as
column norms.  The conditions evaluate left to right with Python
short-circuiting, so referencing the never-initialised `U`, `V` or `Sv`
raises `UnboundLocalError` here. -/
def svResolve (usv vsv u v sv : PyLocal) : Except PyError PyLocal :=
  -- line 45: `if Usv is None and U is not None and Sv is None:`
  match pyRead "Usv" usv with
  | .error e => .error e
  | .ok usvV =>
    let c45 : Except PyError Bool :=
      if usvV.isSome then .ok false
      else match pyRead "U" u with
        | .error e => .error e
        | .ok uV =>
          if uV.isNone then .ok false
          else match pyRead "Sv" sv with
            | .error e => .error e
            | .ok svV => .ok svV.isNone
    match c45 with
    | .error e => .error e
    | .ok true =>
      -- lines 46–49
      match pyRead "Vsv" vsv with
      | .error e => .error e
      | .ok (some vsvA) => .ok (some (some (colNorms vsvA)))
      | .ok none => .error (.valueError "no Sv scaling for PCs available")
    | .ok false =>
      -- line 50: `elif Vsv is None and V is not None and Sv is None:`
      match pyRead "Vsv" vsv with
      | .error e => .error e
      | .ok vsvV =>
        let c50 : Except PyError Bool :=
          if vsvV.isSome then .ok false
          else match pyRead "V" v with
            | .error e => .error e
            | .ok vV =>
              if vV.isNone then .ok false
              else match pyRead "Sv" sv with
                | .error e => .error e
                | .ok svV => .ok svV.isNone
        match c50 with
        | .error e => .error e
        | .ok true =>
          -- lines 51–54
          match pyRead "Usv" usv with
          | .error e => .error e
          | .ok (some usvA) => .ok (some (some (colNorms usvA)))
          | .ok none => .error (.valueError "no Sv scaling for PCs available")
        | .ok false => .ok sv

/-- Lines 55–56: `if Usv is None and U is not None and Sv is not None:
Usv = U * Sv` (again with left-to-right short-circuiting). -/
def scaleU (usv u sv : PyLocal) : Except PyError PyLocal :=
  match pyRead "Usv" usv with
  | .error e => .error e
  | .ok (some _) => .ok usv
  | .ok none =>
    match pyRead "U" u with
    | .error e => .error e
    | .ok none => .ok usv
    | .ok (some uA) =>
      match pyRead "Sv" sv with
      | .error e => .error e
      | .ok none => .ok usv
      | .ok (some svA) =>
        match npMul uA svA with
        | .error e => .error e
        | .ok r => .ok (some (some r))

/-- Lines 57–58: `if Vsv is None and V is not None and Sv is not None:
Vsv = V * Sv`. -/
def scaleV (vsv v sv : PyLocal) : Except PyError PyLocal :=
  match pyRead "Vsv" vsv with
  | .error e => .error e
  | .ok (some _) => .ok vsv
  | .ok none =>
    match pyRead "V" v with
    | .error e => .error e
    | .ok none => .ok vsv
    | .ok (some vA) =>
      match pyRead "Sv" sv with
      | .error e => .error e
      | .ok none => .ok vsv
      | .ok (some svA) =>
        match npMul vA svA with
        | .error e => .error e
        | .ok r => .ok (some (some r))

/-- Lines 60–65: the factor-pair shape validation.  `Usv.shape[-1]` is
evaluated first, so a `None` factor raises `AttributeError` and a 0-d
factor raises `IndexError` before the comparison.  On success the checked
arrays are returned (the source leaves the locals unchanged). -/
def factorChecks (usv vsv : PyLocal) : Except PyError (NDArray × NDArray) :=
  match pyRead "Usv" usv with
  | .error e => .error e
  | .ok usvV =>
    match asArray usvV with
    | .error e => .error e
    | .ok usvA =>
      match shapeLast usvA with
      | .error e => .error e
      | .ok du =>
        match pyRead "Vsv" vsv with
        | .error e => .error e
        | .ok vsvV =>
          match asArray vsvV with
          | .error e => .error e
          | .ok vsvA =>
            match shapeLast vsvA with
            | .error e => .error e
            | .ok dv =>
              if du ≠ dv then
                .error (.valueError "Usv and Vsv must have the same number of components")
              else if usvA.ndim > 3 then
                .error (.valueError "Usv cannot have more than 3 dimensions")
              else if vsvA.ndim ≠ 2 then
                .error (.valueError "Vsv must have 2 dimensions")
              else .ok (usvA, vsvA)

/-- Lines 67–83: coordinate resolution.  Takes the current values of the
`X` and `Usv` locals (the latter as updated by lines 55–58) and returns
the final `xy` value together with the printed messages. -/
def xyResolve (xL usvL xposL yposL xyL : PyLocal) :
    Except PyError (Option NDArray × List String) :=
  -- line 67: `if xpos is not None and xy is None:`
  let xy1 : Except PyError (Option NDArray) :=
    match pyRead "xpos" xposL with
    | .error e => .error e
    | .ok none => pyRead "xy" xyL
    | .ok (some xposA) =>
      match pyRead "xy" xyL with
      | .error e => .error e
      | .ok (some xyA) => .ok (some xyA)
      | .ok none =>
        match pyRead "ypos" yposL with
        | .error e => .error e
        | .ok yposV =>
          match npStack2 xposA yposV with
          | .error e => .error e
          | .ok s => .ok (some s)
  match xy1 with
  | .error e => .error e
  | .ok none => .ok (none, [])
  | .ok (some xyA) =>
    -- lines 71–75
    if xyA.ndim ≠ 2 then
      .ok (none, ["cannot use xy from file: x and y positions of neurons must be 2-dimensional"])
    else
      let xy2 := if xyA.shape.headD 0 = 2 ∨ xyA.shape.headD 0 = 3 then transpose2 xyA else xyA
      -- lines 76–82 (`xy` is not `None` here)
      let discard : Except PyError Bool :=
        match pyRead "X" xL with
        | .error e => .error e
        | .ok (some xA) =>
          -- line 77: `X is not None and X.shape[0] != xy.shape[0]`
          (match shapeHead xA with
          | .error e => .error e
          | .ok hx =>
            match shapeHead xy2 with
            | .error e => .error e
            | .ok hxy =>
              if hx ≠ hxy then .ok true
              else
                -- line 79: `elif Usv.shape[0] != xy.shape[0]:`
                -- (no `Usv is not None` guard in this version)
                match pyRead "Usv" usvL with
                | .error e => .error e
                | .ok usvV =>
                  match asArray usvV with
                  | .error e => .error e
                  | .ok usvA =>
                    match shapeHead usvA with
                    | .error e => .error e
                    | .ok hu => .ok (hu ≠ hxy))
        | .ok none =>
          match pyRead "Usv" usvL with
          | .error e => .error e
          | .ok usvV =>
            match asArray usvV with
            | .error e => .error e
            | .ok usvA =>
              match shapeHead usvA with
              | .error e => .error e
              | .ok hu =>
                match shapeHead xy2 with
                | .error e => .error e
                | .ok hxy => .ok (hu ≠ hxy)
      match discard with
      | .error e => .error e
      | .ok true =>
        .ok (none, ["cannot use xy from file: x and y positions of neurons are not same size as activity"])
      | .ok false => .ok (some xy2, [])

/-- The value returned by `_load_dict`: `(X, Usv, Vsv, xy)`. -/
structure DictResult where
  X : Option NDArray
  Usv : Option NDArray
  Vsv : Option NDArray
  xy : Option NDArray
deriving DecidableEq, Repr

/-- Lines 44–84 of `_load_dict`, applied to the state left by the key
loop: the factor block (only when `X is None`), then coordinate
resolution, then the final read of the locals for the `return`. -/
def dictPost (s : DState) : Except PyError (DictResult × List String) :=
  match pyRead "X" s.X with
  | .error e => .error e
  | .ok xV =>
    let factored : Except PyError (PyLocal × PyLocal) :=
      if xV.isNone then
        -- line 44: `if X is None:`
        match svResolve s.Usv s.Vsv s.U s.V s.Sv with
        | .error e => .error e
        | .ok sv1 =>
          match scaleU s.Usv s.U sv1 with
          | .error e => .error e
          | .ok usv1 =>
            match scaleV s.Vsv s.V sv1 with
            | .error e => .error e
            | .ok vsv1 =>
              match factorChecks usv1 vsv1 with
              | .error e => .error e
              | .ok _ => .ok (usv1, vsv1)
      else .ok (s.Usv, s.Vsv)
    match factored with
    | .error e => .error e
    | .ok (usvL, vsvL) =>
      match xyResolve s.X usvL s.xpos s.ypos s.xy with
      | .error e => .error e
      | .ok (xyF, log) =>
        match pyRead "Usv" usvL with
        | .error e => .error e
        | .ok usvF =>
          match pyRead "Vsv" vsvL with
          | .error e => .error e
          | .ok vsvF => .ok (⟨xV, usvF, vsvF, xyF⟩, log)

/-- `_load_dict(dat, keys)` (io.py lines 9–84).  The mapping is given as
its list of key/value pairs, iterated in order. -/
def _load_dict (dat : List (String × NDArray)) :
    Except PyError (DictResult × List String) :=
  dictPost (dat.foldl assignKey initState)

/-! ## `load_activity` (io.py lines 86–148) -/

/-- `os.path.splitext(filename)[-1]`: the extension of the basename,
`""` when there is none; leading dots of the basename never start an
extension. -/
def splitextExt (filename : String) : String :=
  let base := ((filename.toList.reverse.takeWhile (fun c => c ≠ '/'))).reverse
  let lead := base.takeWhile (fun c => c = '.')
  let rest := base.drop lead.length
  let extRev := rest.reverse.takeWhile (fun c => c ≠ '.')
  if extRev.length = rest.length then "" else String.mk ('.' :: extRev.reverse)

/-- `os.path.split(p)[0]`: everything up to the last separator, with
trailing separators stripped unless the head is nothing but separators. -/
def osPathSplitHead (p : String) : String :=
  let cs := p.toList
  let tailLen := (cs.reverse.takeWhile (fun c => c ≠ '/')).length
  let headAll := cs.take (cs.length - tailLen)
  let stripped := (headAll.reverse.dropWhile (fun c => c = '/')).reverse
  if stripped.isEmpty ∧ ¬ headAll.isEmpty then String.mk headAll
  else String.mk stripped

/-- `os.path.join(a, b)` for a relative `b`. -/
def osPathJoin (a b : String) : String :=
  if a = "" then b
  else if a.toList.getLast? = some '/' then a ++ b
  else a ++ "/" ++ b

def reservedKeys : List String := ["__header__", "__version__", "__globals__"]

/-- The contents of the file being loaded, as the extension-specific
reader would deliver them:
* `mat`: `scipy.io.loadmat` succeeds and returns this mapping (reserved
  bookkeeping keys included as given);
* `mat73`: `scipy.io.loadmat` raises `NotImplementedError`, the flag says
  whether the optional `mat73` package is importable, and the mapping is
  what `mat73.loadmat` would return;
* `npyArr`: `np.load` returns a plain array;
* `npyDict`: `np.load` returns a 0-d object array wrapping this mapping;
* `npz`: `np.load` returns an archive with these members, in this order.

A constructor that does not match the file extension is outside the
modelled input space (in reality the reader itself would fail). -/
inductive Content where
  | mat (entries : List (String × NDArray))
  | mat73 (installed : Bool) (entries : List (String × NDArray))
  | npyArr (a : NDArray)
  | npyDict (entries : List (String × NDArray))
  | npz (entries : List (String × NDArray))
deriving DecidableEq, Repr

/-- The possible values of the `X` variable when control reaches line 122:
Python `None`, an array, or (only on the `.mat` branch when every key was
reserved) still the whole `loadmat` dictionary. -/
inductive PyX where
  | pyNone
  | arr (a : NDArray)
  | rawdict (entries : List (String × NDArray))
deriving DecidableEq, Repr

def PyX.ofOption : Option NDArray → PyX
  | none => .pyNone
  | some a => .arr a

/-- Lines 93–96: `sio.loadmat` returned a dict, and the loop
`for key in X.keys(): if key not in reserved: X = X[key]` peels payload
entries off it.  The iterator ranges over the original keys; after `X`
has been rebound to an array a second payload key indexes that array with
a string, which numpy rejects.  Mapping keys are unique, so `X[key]` is
the pair's value. -/
def matExtract (entries : List (String × NDArray)) : Except PyError PyX :=
  match entries.foldlM
    (fun (X : PyX) (kv : String × NDArray) =>
      if kv.1 ∈ reservedKeys then Except.ok X
      else match X with
        | .rawdict _ => Except.ok (PyX.arr kv.2)
        | _ => Except.error
            (PyError.indexError "only integers, slices, ellipsis, numpy.newaxis and integer or boolean arrays are valid indices"))
    (PyX.rawdict entries) with
  | .error e => .error e
  | .ok x => .ok x

/-- Lines 124–146: validation of a resolved activity matrix, returning
the (possibly flattened) matrix and the emitted warning/print messages. -/
def validateX (a : NDArray) : Except PyError (NDArray × List String) :=
  if a.ndim = 1 then
    .error (.valueError "ERROR: 1D array provided, but rastermap requires 2D array")
  else if a.ndim > 3 then
    .error (.valueError "ERROR: nD array provided (n>3), but rastermap requires 2D array")
  else
    let warn :=
      if a.ndim = 3 then
        ["WARNING: 3D array provided (n>3), rastermap requires 2D array, will flatten to 2D"]
      else []
    match shapeHead a with
    | .error e => .error e
    | .ok h =>
      if h < 10 then
        .error (.valueError "ERROR: matrix with fewer than 10 neurons provided")
      else
        match a.shape with
        | [d0, d1, d2] =>
          -- lines 142–146: print the notice (the source string lacks the
          -- closing parenthesis) and `X = X.reshape(X.shape[0], -1)`
          .ok (⟨[d0, d1 * d2], a.data⟩,
            warn ++ ["activity matrix has third dimension of size " ++ toString d2 ++
              ", flattening matrix to size (" ++ toString d0 ++ ", " ++ toString (d1 * d2)])
        | _ => .ok (a, warn)

/-- What `load_activity` evaluates to: the bare `return` of line 123
(Python `None`) or the 4-tuple of line 148. -/
inductive LoadOut where
  | pyNone
  | result (X Usv Vsv xy : Option NDArray)
deriving DecidableEq, Repr

/-- Lines 122–148, shared by all extension branches.  `xyL` is the `xy`
local, which the plain-`.mat` and plain-`.npy` branches never assign, so
the final `return X, Usv, Vsv, xy` can raise `UnboundLocalError`. -/
def postLoad (xObj : PyX) (usv vsv : Option NDArray) (xyL : PyLocal)
    (log : List String) : Except PyError (LoadOut × List String) :=
  match xObj with
  | .pyNone =>
    if usv.isNone ∨ vsv.isNone then .ok (.pyNone, log)
    else
      match pyRead "xy" xyL with
      | .error e => .error e
      | .ok xyV => .ok (.result none usv vsv xyV, log)
  | .arr a =>
    match validateX a with
    | .error e => .error e
    | .ok (a2, w) =>
      match pyRead "xy" xyL with
      | .error e => .error e
      | .ok xyV => .ok (.result (some a2) usv vsv xyV, log ++ w)
  | .rawdict _ => .error (.attributeError "ndim")

/-- `load_activity(filename)` (io.py lines 86–148).  Returns the value of
the call together with the messages printed/warned on the successful
path (messages printed on a path that then raises are not tracked). -/
def load_activity (filename : String) (c : Content) :
    Except PyError (LoadOut × List String) :=
  let ext := splitextExt filename
  let log0 := ["Loading " ++ filename]
  -- line 89: `Usv, Vsv = None, None` — note `xy` is not initialised here
  if ext = ".mat" then
    match c with
    | .mat entries =>
      (match matExtract entries with
      | .error e => .error e
      | .ok xObj => postLoad xObj none none none log0)
    | .mat73 installed entries =>
      if !installed then
        -- lines 99–102: the `import mat73` failure is caught and printed,
        -- then `mat73.loadmat` raises `NameError: name mat73 is not defined`
        .error (.nameError "mat73")
      else
        -- lines 102–108: collect the non-reserved keys and resolve them
        (match _load_dict (entries.filter (fun kv => kv.1 ∉ reservedKeys)) with
        | .error e => .error e
        | .ok (r, lg) => postLoad (PyX.ofOption r.X) r.Usv r.Vsv (some r.xy) (log0 ++ lg))
    | _ => .error (.exception "content does not match extension")
  else if ext = ".npy" then
    match c with
    | .npyArr a =>
      -- line 111: `X.item()` — only a size-1 array yields a scalar;
      -- otherwise numpy raises before the isinstance check
      if a.size = 1 then postLoad (PyX.arr a) none none none log0
      else .error (.valueError "can only convert an array of size 1 to a Python scalar")
    | .npyDict entries =>
      (match _load_dict entries with
      | .error e => .error e
      | .ok (r, lg) => postLoad (PyX.ofOption r.X) r.Usv r.Vsv (some r.xy) (log0 ++ lg))
    | _ => .error (.exception "content does not match extension")
  else if ext = ".npz" then
    match c with
    | .npz entries =>
      (match _load_dict entries with
      | .error e => .error e
      | .ok (r, lg) => postLoad (PyX.ofOption r.X) r.Usv r.Vsv (some r.xy) (log0 ++ lg))
    | _ => .error (.exception "content does not match extension")
  else
    -- lines 119–120
    .error (.exception "Invalid file type")

/-! ## `_load_iscell` and `_load_stat` (io.py lines 150–171) -/

/-- `a[:, j]`: requires at least 2 dimensions and `j` within axis 1,
otherwise numpy raises `IndexError` (which is *not* in the caught tuple
of the sibling lookups). -/
def colSlice (a : NDArray) (j : Nat) : Except PyError NDArray :=
  match a.shape with
  | n :: m :: rest =>
    if j < m then
      let c := rest.prod
      .ok ⟨n :: rest, (List.range n).flatMap
        (fun i => ((a.data.drop (i * m * c + j * c)).take c))⟩
    else .error (.indexError "index is out of bounds for axis 1")
  | _ => .error (.indexError "too many indices for array")

/-- `.astype("bool")`: nonzero elements become `True` (kept as 1/0). -/
def astypeBool (a : NDArray) : NDArray :=
  ⟨a.shape, a.data.map (fun x => if x = 0 then 0 else 1)⟩

/-- The exception classes named in the `except` clauses of the sibling
lookups: `(ValueError, OSError, RuntimeError, TypeError, NameError)`.
`UnboundLocalError` is a subclass of `NameError`.  Everything else —
in particular `IndexError` and `KeyError` — propagates. -/
def caught5 : PyError → Bool
  | .valueError _ => true
  | .osError _ => true
  | .runtimeError _ => true
  | .typeError _ => true
  | .nameError _ => true
  | .unboundLocalError _ => true
  | _ => false

/-- `_load_iscell(filename)` (io.py lines 150–160).  `loaded` is the
outcome of `np.load` on the sibling `iscell.npy` (a missing file raises
`FileNotFoundError`, an `OSError`). -/
def _load_iscell (filename : String) (loaded : Except PyError NDArray) :
    Except PyError (Option NDArray × Option String) :=
  let file_iscell := osPathJoin (osPathSplitHead filename) "iscell.npy"
  let body : Except PyError (NDArray × String) :=
    match loaded with
    | .error e => .error e
    | .ok iscell =>
      match colSlice iscell 1 with
      | .error e => .error e
      | .ok _probcell =>
        match colSlice iscell 0 with
        | .error e => .error e
        | .ok c0 => .ok (astypeBool c0, file_iscell)
  match body with
  | .ok (m, f) => .ok (some m, some f)
  | .error e => if caught5 e then .ok (none, none) else .error e

/-- One element of the `stat.npy` record array: either it has the
2-element `"med"` field or it does not (then `s["med"]` raises
`KeyError`). -/
inductive StatRecord where
  | withMed (x y : Rat)
  | noMed
deriving DecidableEq, Repr

/-- `s["med"]`: the field access in the list comprehension of line 167;
raises `KeyError` when the record lacks the field. -/
def medOf (s : StatRecord) : Except PyError (Rat × Rat) :=
  match s with
  | .withMed x y => .ok (x, y)
  | .noMed => .error (.keyError "med")

/-- `_load_stat(filename)` (io.py lines 162–171).  `loaded` is the
outcome of `np.load` on the sibling `stat.npy`. -/
def _load_stat (filename : String) (loaded : Except PyError (List StatRecord)) :
    Except PyError (Option NDArray × Option String) :=
  let file_stat := osPathJoin (osPathSplitHead filename) "stat.npy"
  let body : Except PyError (NDArray × String) :=
    match loaded with
    | .error e => .error e
    | .ok stat =>
      -- line 167: `np.array([s["med"] for s in stat])`
      match stat.mapM medOf with
      | .error e => .error e
      | .ok meds =>
        .ok (⟨[meds.length, 2], meds.flatMap (fun p => [p.1, p.2])⟩, file_stat)
  match body with
  | .ok (m, f) => .ok (some m, some f)
  | .error e => if caught5 e then .ok (none, none) else .error e

/-! ## Concrete arrays used by the claim theorems -/

/-- A 10 × 2 matrix of ones (a minimal valid activity matrix). -/
def arr10x2 : NDArray := ⟨[10, 2], List.replicate 20 1⟩

/-- A 10 × 3 activity matrix of ones. -/
def arr10x3 : NDArray := ⟨[10, 3], List.replicate 30 1⟩

/-- A 1-d array of length 12. -/
def arr12 : NDArray := ⟨[12], List.replicate 12 1⟩

/-- A 4-d array. -/
def arr4d : NDArray := ⟨[10, 2, 2, 2], List.replicate 80 1⟩

/-- A 9 × 5 matrix (fewer than 10 rows). -/
def arr9x5 : NDArray := ⟨[9, 5], List.replicate 45 1⟩

/-- A 10 × 4 × 3 array (3-d activity input). -/
def arr3d : NDArray := ⟨[10, 4, 3], List.replicate 120 1⟩

/-- A 5 × 2 right factor. -/
def arr5x2 : NDArray := ⟨[5, 2], List.replicate 10 1⟩

/-- A 5 × 3 right factor (trailing dimension 3). -/
def arr5x3 : NDArray := ⟨[5, 3], List.replicate 15 1⟩

/-- A length-10 position vector. -/
def pos10 : NDArray := ⟨[10], List.replicate 10 1⟩

/-- A length-11 position vector. -/
def pos11 : NDArray := ⟨[11], List.replicate 11 1⟩

/-! ## Helper lemmas -/

theorem ok_bind {α β : Type} (a : α) (f : α → Except PyError β) :
    (Except.ok a >>= f) = f a := rfl

theorem shapeLast_ok {a : NDArray} {d : Nat} (h : shapeLast a = .ok d) :
    a.shape.getLast? = some d := by
  unfold shapeLast at h
  cases hg : a.shape.getLast? with
  | none => rw [hg] at h; simp at h
  | some x => rw [hg] at h; simp at h; rw [h]

/-- A successful run of the line-60–65 validation certifies that both
factor locals hold arrays with matching trailing dimensions and the
required dimensionalities. -/
theorem factorChecks_ok {u v : PyLocal} {p : NDArray × NDArray}
    (h : factorChecks u v = .ok p) :
    u = some (some p.1) ∧ v = some (some p.2) ∧
      p.1.shape.getLast? = p.2.shape.getLast? ∧ p.1.ndim ≤ 3 ∧ p.2.ndim = 2 := by
  obtain ⟨p1, p2⟩ := p
  cases u with
  | none => simp [factorChecks, pyRead] at h
  | some usvV =>
    cases usvV with
    | none => simp [factorChecks, pyRead, asArray] at h
    | some uA =>
      cases hl : shapeLast uA with
      | error e => simp [factorChecks, pyRead, asArray, hl] at h
      | ok du =>
        cases v with
        | none => simp [factorChecks, pyRead, asArray, hl] at h
        | some vsvV =>
          cases vsvV with
          | none => simp [factorChecks, pyRead, asArray, hl] at h
          | some vA =>
            cases hm : shapeLast vA with
            | error e => simp [factorChecks, pyRead, asArray, hl, hm] at h
            | ok dv =>
              simp only [factorChecks, pyRead, asArray, hl, hm] at h
              by_cases hdu : du = dv
              · simp [hdu] at h
                by_cases h3 : uA.ndim > 3
                · simp [h3] at h
                · simp [h3] at h
                  by_cases h2 : vA.ndim = 2
                  · simp [h2] at h
                    obtain ⟨ha1, ha2⟩ := h
                    subst ha1
                    subst ha2
                    exact ⟨rfl, rfl,
                      by rw [shapeLast_ok hl, shapeLast_ok hm, hdu],
                      Nat.le_of_not_lt h3, h2⟩
                  · simp [h2] at h
              · simp [hdu] at h

/-- Soundness of the factor path for an arbitrary loop state: if the
post-loop code returns normally with the `X` slot empty, the returned
`Usv`/`Vsv` are present, share the trailing dimension, and satisfy the
dimensionality constraints. -/
theorem dictPost_ok_no_X {s : DState} {r : DictResult} {lg : List String}
    (h : dictPost s = .ok (r, lg)) (hx : r.X = none) :
    ∃ uA vA, r.Usv = some uA ∧ r.Vsv = some vA ∧
      uA.shape.getLast? = vA.shape.getLast? ∧ uA.ndim ≤ 3 ∧ vA.ndim = 2 := by
  unfold dictPost at h
  cases hr : pyRead "X" s.X with
  | error e => simp [hr] at h
  | ok xV =>
    simp only [hr] at h
    cases xV with
    | some a =>
      simp only [Option.isNone_some, Bool.false_eq_true, if_false] at h
      cases hxy : xyResolve s.X s.Usv s.xpos s.ypos s.xy with
      | error e => simp [hxy] at h
      | ok q =>
        obtain ⟨xyF, log1⟩ := q
        simp only [hxy] at h
        cases hu : pyRead "Usv" s.Usv with
        | error e => simp [hu] at h
        | ok usvF =>
          simp only [hu] at h
          cases hv : pyRead "Vsv" s.Vsv with
          | error e => simp [hv] at h
          | ok vsvF =>
            simp only [hv] at h
            simp at h
            obtain ⟨h1, h2⟩ := h
            rw [← h1] at hx
            simp at hx
    | none =>
      simp only [Option.isNone_none, if_true] at h
      cases hsv : svResolve s.Usv s.Vsv s.U s.V s.Sv with
      | error e => simp [hsv] at h
      | ok sv1 =>
        simp only [hsv] at h
        cases hsu : scaleU s.Usv s.U sv1 with
        | error e => simp [hsu] at h
        | ok usv1 =>
          simp only [hsu] at h
          cases hsw : scaleV s.Vsv s.V sv1 with
          | error e => simp [hsw] at h
          | ok vsv1 =>
            simp only [hsw] at h
            cases hfc : factorChecks usv1 vsv1 with
            | error e => simp [hfc] at h
            | ok p =>
              simp only [hfc] at h
              obtain ⟨hu1, hv1, hlast, hnu, hnv⟩ := factorChecks_ok hfc
              cases hxy : xyResolve s.X usv1 s.xpos s.ypos s.xy with
              | error e => simp [hxy] at h
              | ok q =>
                obtain ⟨xyF, log1⟩ := q
                simp only [hxy] at h
                rw [hu1, hv1] at h
                simp only [pyRead] at h
                simp at h
                obtain ⟨h1, h2⟩ := h
                refine ⟨p.1, p.2, ?_, ?_, hlast, hnu, hnv⟩
                · rw [← h1]
                · rw [← h1]

theorem mapM_loop_medOf (l : List (Rat × Rat)) :
    ∀ acc : List (Rat × Rat),
      List.mapM.loop medOf (l.map (fun p => StatRecord.withMed p.1 p.2)) acc =
        .ok (acc.reverse ++ l) := by
  induction l with
  | nil => intro acc; simp [List.mapM.loop]; rfl
  | cons a t ih => intro acc; simp [List.mapM.loop, medOf, ok_bind, ih]

theorem mapM_medOf (l : List (Rat × Rat)) :
    (l.map (fun p => StatRecord.withMed p.1 p.2)).mapM medOf = .ok l := by
  simpa using mapM_loop_medOf l []

/-! ## Claim theorems -/

/-- C1: the claim says every supported extension returns a plain
2-d (N ≥ 10, T) payload unchanged as `X` with `Usv`, `Vsv`, `xy` null.
The code does so only for `.npz` (under a recognised member name): a
plain-array `.mat` file passes validation but the final
`return X, Usv, Vsv, xy` raises `UnboundLocalError` because `xy` is
assigned only on the mapping branches, and a plain-array `.npy` file
raises `ValueError` at `X.item()`, which numpy rejects for arrays of
size greater than one. -/
theorem c1_plain_array_load :
    load_activity "data.mat" (.mat [("__header__", arr10x2), ("data", arr10x2)]) =
      .error (.unboundLocalError "xy")
    ∧ load_activity "data.npy" (.npyArr arr10x2) =
      .error (.valueError "can only convert an array of size 1 to a Python scalar")
    ∧ load_activity "data.npz" (.npz [("X", arr10x2)]) =
      .ok (.result (some arr10x2) none none none, ["Loading data.npz"]) := by
  refine ⟨rfl, rfl, rfl⟩

/-- C2: the claim says a mapping resolving neither `X` nor a complete
`Usv`/`Vsv` pair yields an all-null soft return.  In the code the
soft-fail return of line 123 is unreachable from the mapping branches:
with no `X` resolved, line 45 evaluates `U is not None` and raises
`UnboundLocalError` because `U` is never initialised.  Shown here on a
mapping holding only an unrecognised key. -/
theorem c2_soft_fail_raises :
    load_activity "d.npz" (.npz [("foo", arr10x2)]) =
      .error (.unboundLocalError "U")
    ∧ load_activity "d.npz" (.npz []) = .error (.unboundLocalError "U") := by
  refine ⟨rfl, rfl⟩

/-- C3: the claim says a mapping with unscaled `U0` (N × k) and scaled
`Vsv` (T × k) derives `Sv` as the column norms of `Vsv` and returns
`Usv = U0 * Sv`.  In the code the derivation branch is dead: line 45
evaluates `Sv is None` and raises `UnboundLocalError` because `Sv` is
never initialised, so the load fails instead. -/
theorem c3_derive_sv_raises :
    load_activity "d.npz" (.npz [("U0", arr10x2), ("Vsv", arr5x2)]) =
      .error (.unboundLocalError "Sv") := by
  rfl

/-- C5: validation of a resolved activity matrix.  The fatal checks all
behave as claimed (1-d, more than 3 dimensions, fewer than 10 rows), and
a 3-d `.npz` payload is flattened to (N, T·3) with a warning — but on a
plain-array `.mat` payload the claimed flattened *return* never happens:
after the warning and the flatten the `return` raises
`UnboundLocalError` for the never-assigned `xy`. -/
theorem c5_activity_validation :
    load_activity "d.npz" (.npz [("X", arr12)]) =
      .error (.valueError "ERROR: 1D array provided, but rastermap requires 2D array")
    ∧ load_activity "d.npz" (.npz [("X", arr4d)]) =
      .error (.valueError "ERROR: nD array provided (n>3), but rastermap requires 2D array")
    ∧ load_activity "d.npz" (.npz [("X", arr9x5)]) =
      .error (.valueError "ERROR: matrix with fewer than 10 neurons provided")
    ∧ load_activity "d.npz" (.npz [("X", arr3d)]) =
      .ok (.result (some ⟨[10, 12], List.replicate 120 1⟩) none none none,
        ["Loading d.npz",
         "WARNING: 3D array provided (n>3), rastermap requires 2D array, will flatten to 2D",
         "activity matrix has third dimension of size 3, flattening matrix to size (10, 12"])
    ∧ load_activity "d.mat" (.mat [("__header__", arr10x2), ("data", arr3d)]) =
      .error (.unboundLocalError "xy") := by
  refine ⟨rfl, rfl, rfl, rfl, rfl⟩

/-- C7: the claim says `xpos`/`ypos` of length N next to X of shape
(N, T) yield `xy` of shape (N, 2).  In the code that case raises
`AttributeError`: when the sizes agree the line-77 condition is false,
so the `elif Usv.shape[0] != xy.shape[0]` of line 79 is evaluated with
`Usv = None` (there is no `Usv is not None` guard).  The discard path the
claim also describes does work: positions of length N+1 are dropped with
a warning while X is returned. -/
theorem c7_coordinate_resolution :
    load_activity "d.npz" (.npz [("X", arr10x2), ("xpos", pos10), ("ypos", pos10)]) =
      .error (.attributeError "shape")
    ∧ load_activity "d.npz" (.npz [("X", arr10x2), ("xpos", pos11), ("ypos", pos11)]) =
      .ok (.result (some arr10x2) none none none,
        ["Loading d.npz",
         "cannot use xy from file: x and y positions of neurons are not same size as activity"]) := by
  refine ⟨rfl, rfl⟩

/-- C8: the claim says an unscaled factor with no `Sv` and no opposite
scaled factor raises an error reporting the missing scaling information
(the source's dead `ValueError: no Sv scaling for PCs available`).  The
code instead raises `UnboundLocalError` while evaluating the line-45
condition: for `Sv` when `U0` alone is given, and already for `U` when
only `V0` is given. -/
theorem c8_missing_scaling_raises :
    load_activity "d.npz" (.npz [("U0", arr10x2)]) =
      .error (.unboundLocalError "Sv")
    ∧ load_activity "d.npz" (.npz [("V0", arr5x2)]) =
      .error (.unboundLocalError "U") := by
  refine ⟨rfl, rfl⟩

/-- C9 counterexample: the claim says the sibling lookups never raise and
swallow any read or shape error.  A 1-d `iscell.npy` payload refutes it:
`iscell[:, 1]` raises `IndexError`, which is not in the caught tuple
`(ValueError, OSError, RuntimeError, TypeError, NameError)` and so
propagates out of `_load_iscell`. -/
theorem c9_iscell_shape_error_raises :
    _load_iscell "dir/data.npy" (.ok ⟨[5], [0, 1, 0, 1, 0]⟩) =
      .error (.indexError "too many indices for array") := by
  rfl

/-- C4: a mapping without `X` that resolves `Usv` and `Vsv` with
mismatched trailing dimensions raises the component-count `ValueError`;
with matching trailing dimensions, more than 3 `Usv` dimensions or a
non-2-d `Vsv` raise their own identified errors.  The last conjunct is
the general invariant: whatever the mapping, a normal return with no
activity matrix carries a factor pair that passed exactly these
checks. -/
theorem c4_factor_pair_validation (usv vsv : NDArray) (du dv : Nat)
    (hu : usv.shape.getLast? = some du) (hv : vsv.shape.getLast? = some dv) :
    (du ≠ dv →
      load_activity "d.npz" (.npz [("Usv", usv), ("Vsv", vsv)]) =
        .error (.valueError "Usv and Vsv must have the same number of components"))
  ∧ (du = dv → 3 < usv.ndim →
      load_activity "d.npz" (.npz [("Usv", usv), ("Vsv", vsv)]) =
        .error (.valueError "Usv cannot have more than 3 dimensions"))
  ∧ (du = dv → usv.ndim ≤ 3 → vsv.ndim ≠ 2 →
      load_activity "d.npz" (.npz [("Usv", usv), ("Vsv", vsv)]) =
        .error (.valueError "Vsv must have 2 dimensions"))
  ∧ (∀ dat r lg, _load_dict dat = .ok (r, lg) → r.X = none →
      ∃ uA vA, r.Usv = some uA ∧ r.Vsv = some vA ∧
        uA.shape.getLast? = vA.shape.getLast? ∧ uA.ndim ≤ 3 ∧ vA.ndim = 2) := by
  have he : splitextExt "d.npz" = ".npz" := by decide
  have hLu : shapeLast usv = .ok du := by unfold shapeLast; rw [hu]
  have hLv : shapeLast vsv = .ok dv := by unfold shapeLast; rw [hv]
  refine ⟨?_, ?_, ?_, ?_⟩
  · intro hne
    simp [load_activity, he, _load_dict, assignKey, initState, dictPost, pyRead,
          svResolve, scaleU, scaleV, factorChecks, asArray, hLu, hLv, hne]
  · intro heq h3
    subst heq
    simp [load_activity, he, _load_dict, assignKey, initState, dictPost, pyRead,
          svResolve, scaleU, scaleV, factorChecks, asArray, hLu, hLv, h3]
  · intro heq h3 h2
    subst heq
    simp [load_activity, he, _load_dict, assignKey, initState, dictPost, pyRead,
          svResolve, scaleU, scaleV, factorChecks, asArray, hLu, hLv,
          Nat.not_lt_of_le h3, h2]
  · intro dat r lg h hx
    exact dictPost_ok_no_X h hx

/-- Witness for C4 at a concrete mismatched pair (10 × 2 against 5 × 3). -/
theorem c4_factor_pair_validation_witness :
    load_activity "d.npz" (.npz [("Usv", arr10x2), ("Vsv", arr5x3)]) =
      .error (.valueError "Usv and Vsv must have the same number of components") :=
  (c4_factor_pair_validation arr10x2 arr5x3 2 3 (by decide) (by decide)).1 (by decide)

/-- C6: for any path whose extension is none of `.mat`, `.npy`, `.npz`,
`load_activity` raises the fatal unsupported-file-type error (the
source's `Exception("Invalid file type")`) regardless of the file
contents, producing no partial result. -/
theorem c6_unsupported_extension (filename : String) (c : Content)
    (h : splitextExt filename ∉ [".mat", ".npy", ".npz"]) :
    load_activity filename c = .error (.exception "Invalid file type") := by
  simp only [List.mem_cons, List.not_mem_nil, or_false, not_or] at h
  obtain ⟨h1, h2, h3⟩ := h
  simp [load_activity, h1, h2, h3]

/-- Witness for C6 on a `.csv` path. -/
theorem c6_unsupported_extension_witness :
    load_activity "data.csv" (.npz []) = .error (.exception "Invalid file type") :=
  c6_unsupported_extension "data.csv" (.npz []) (by decide)

/-- C9 (amended): the sibling lookups swallow exactly `ValueError`,
`OSError`, `RuntimeError`, `TypeError` and `NameError` — in particular a
missing sibling file (an `OSError`) gives `(None, None)` without raising
— and return the boolean mask / stacked median positions with the
sibling path on success; but exceptions outside that tuple propagate. -/
theorem c9_sibling_lookups :
    (∀ fn e, caught5 e = true →
      _load_iscell fn (.error e) = .ok (none, none) ∧
      _load_stat fn (.error e) = .ok (none, none))
  ∧ (∀ fn e, caught5 e = false →
      _load_iscell fn (.error e) = .error e ∧
      _load_stat fn (.error e) = .error e)
  ∧ (∀ fn a c1 c0, colSlice a 1 = .ok c1 → colSlice a 0 = .ok c0 →
      _load_iscell fn (.ok a) =
        .ok (some (astypeBool c0), some (osPathJoin (osPathSplitHead fn) "iscell.npy")))
  ∧ (∀ fn (l : List (Rat × Rat)),
      _load_stat fn (.ok (l.map (fun p => StatRecord.withMed p.1 p.2))) =
        .ok (some ⟨[l.length, 2], l.flatMap (fun p => [p.1, p.2])⟩,
          some (osPathJoin (osPathSplitHead fn) "stat.npy"))) := by
  refine ⟨?_, ?_, ?_, ?_⟩
  · intro fn e he
    exact ⟨by simp [_load_iscell, he], by simp [_load_stat, he]⟩
  · intro fn e he
    exact ⟨by simp [_load_iscell, he], by simp [_load_stat, he]⟩
  · intro fn a c1 c0 h1 h0
    simp [_load_iscell, h1, h0]
  · intro fn l
    simp [_load_stat, mapM_medOf l, mapM_loop_medOf l]

/-- Witness for C9: a missing `iscell.npy` (an `OSError`) softly yields
`(None, None)`, and a well-formed two-column `iscell.npy` yields the
boolean mask and the sibling path. -/
theorem c9_sibling_lookups_witness :
    _load_iscell "dir/data.npy" (.error (.osError "No such file or directory")) =
      .ok (none, none)
  ∧ _load_iscell "dir/data.npy" (.ok ⟨[3, 2], [1, 1, 0, 1, 1, 0]⟩) =
      .ok (some (astypeBool ⟨[3], [1, 0, 1]⟩), some "dir/iscell.npy") :=
  ⟨(c9_sibling_lookups.1 "dir/data.npy" (.osError "No such file or directory") rfl).1,
   c9_sibling_lookups.2.2.1 "dir/data.npy" ⟨[3, 2], [1, 1, 0, 1, 1, 0]⟩
     ⟨[3], [1, 1, 0]⟩ ⟨[3], [1, 0, 1]⟩ rfl rfl⟩

/-- C10: when an `X` entry resolves, the factor block of lines 45–65 is
skipped entirely: any `Usv`/`Vsv` entries — of arbitrary, even
mismatched, shapes — are returned verbatim without validation and no
error is raised. -/
theorem c10_x_skips_factor_checks (n t : Nat) (xd : List Rat)
    (usv vsv : NDArray) (h : 10 ≤ n) :
    load_activity "d.npz" (.npz [("X", ⟨[n, t], xd⟩), ("Usv", usv), ("Vsv", vsv)]) =
      .ok (.result (some ⟨[n, t], xd⟩) (some usv) (some vsv) none,
        ["Loading d.npz"]) := by
  have he : splitextExt "d.npz" = ".npz" := by decide
  have hn : ¬ (n < 10) := by omega
  simp [load_activity, he, _load_dict, assignKey, initState, dictPost, pyRead,
        xyResolve, postLoad, validateX, NDArray.ndim, shapeHead, hn, PyX.ofOption]

/-- Witness for C10 with a valid 10 × 3 activity matrix and a factor
pair whose trailing dimensions disagree (2 against 3). -/
theorem c10_x_skips_factor_checks_witness :
    load_activity "d.npz"
        (.npz [("X", ⟨[10, 3], List.replicate 30 1⟩), ("Usv", arr10x2), ("Vsv", arr5x3)]) =
      .ok (.result (some ⟨[10, 3], List.replicate 30 1⟩)
        (some arr10x2) (some arr5x3) none, ["Loading d.npz"]) :=
  c10_x_skips_factor_checks 10 3 (List.replicate 30 1) arr10x2 arr5x3 (by decide)

end Rastermap
